import Mathlib

/-!
Verification development for the bank-churn dashboard client
(`streamlit_app.py`). The dashboard composes three request/response flows
against an external prediction service: a single prediction, a batch
prediction over an uploaded table, and a drift check. Each flow is embedded
here as a pure function of its inputs together with a network oracle that
models the outcome of the one HTTP call the flow performs; the list of
issued requests is returned alongside the displayed outcome so that
"no network call is made" is a provable statement.
-/

set_option autoImplicit false

namespace BankChurn

/-- Scalar value held in one table cell: a string, an integer, a rational
(modelling a Python float whose exact arithmetic is not exercised by the
dashboard), or a missing value (pandas NaN). -/
inductive Cell where
  | str : String → Cell
  | int : Int → Cell
  | rat : Rat → Cell
  | nan : Cell
deriving DecidableEq, Repr

/-- Column-major table, as pandas stores a DataFrame: a row count (the
length of the RangeIndex) and a list of named columns in order. -/
structure DataFrame where
  nrows : Nat
  cols : List (String × List Cell)
deriving DecidableEq, Repr

/-- Lookup of the data of the first column with the given name, as
`df[name]` reads a column. -/
def findCol : List (String × List Cell) → String → Option (List Cell)
  | [], _ => none
  | p :: t, c => if p.1 = c then some p.2 else findCol t c

/-- Column assignment `df[name] = data`: replace the column in place when
the name is present, append a new column at the end otherwise. -/
def setColAux : List (String × List Cell) → String → List Cell → List (String × List Cell)
  | [], c, data => [(c, data)]
  | p :: t, c, data => if p.1 = c then (c, data) :: t else p :: setColAux t c data

/-- Lookup in a record (a Python dict rendered as an association list);
an absent key reads as NaN, as pandas fills missing entries. -/
def lookupCell : List (String × Cell) → String → Cell
  | [], _ => Cell.nan
  | p :: t, k => if p.1 = k then p.2 else lookupCell t k

def DataFrame.header (df : DataFrame) : List String := df.cols.map Prod.fst

def DataFrame.getCol (df : DataFrame) (c : String) : Option (List Cell) :=
  findCol df.cols c

def DataFrame.setCol (df : DataFrame) (c : String) (data : List Cell) : DataFrame :=
  ⟨df.nrows, setColAux df.cols c data⟩

/-- Cell of column `c` at row index `i`. -/
def DataFrame.cellAt (df : DataFrame) (c : String) (i : Nat) : Option Cell :=
  (df.getCol c).bind (fun l => l.get? i)

/-- Row `i` of the table: one cell per column, in column order, NaN when a
column is shorter than the index (pandas alignment padding). -/
def DataFrame.rowAt (df : DataFrame) (i : Nat) : List Cell :=
  df.cols.map (fun p => (p.2.get? i).getD Cell.nan)

/-- Well-formedness of a table produced by `pd.read_csv`: every column
holds one cell per row. -/
def DataFrame.WF (df : DataFrame) : Prop :=
  ∀ p ∈ df.cols, p.2.length = df.nrows

instance (df : DataFrame) : Decidable df.WF :=
  List.decidableBAll _ df.cols

/-- Indicator series `(geo == country).astype(int)` (line 121/122): 1 where
the cell equals the country string, 0 elsewhere (NaN and every other value
compare unequal, hence 0). -/
def indicatorCol (country : String) (geo : List Cell) : List Cell :=
  geo.map (fun v => if v = Cell.str country then Cell.int 1 else Cell.int 0)

/-- Intermediate frame after line 121: the `Geography_Germany` indicator
column assigned from the `Geography` column. -/
def withGermanyCol (df : DataFrame) : DataFrame :=
  df.setCol "Geography_Germany"
    (indicatorCol "Germany" ((df.getCol "Geography").getD []))

/-- Geography preprocessing of the batch flow (lines 119-124): when a
`Geography` column is present, assign the `Geography_Germany` indicator
column and then the `Geography_Spain` indicator column. The second
assignment re-reads the (unchanged) `Geography` column of the intermediate
frame, as the Python code does. -/
def processGeography (df : DataFrame) : DataFrame :=
  if "Geography" ∈ df.header then
    (withGermanyCol df).setCol "Geography_Spain"
      (indicatorCol "Spain" (((withGermanyCol df).getCol "Geography").getD []))
  else df

/-- Name-level effect of one column assignment on the header. -/
def setName : List String → String → List String
  | [], c => [c]
  | a :: t, c => if a = c then c :: t else a :: setName t c

/-- Header of the processed frame as a function of the uploaded header
alone: the geography derivation reads cell values but the set of columns
it produces, and hence the missing-column validation, depends only on
which columns the upload has. -/
def processedHeader (h : List String) : List String :=
  if "Geography" ∈ h then setName (setName h "Geography_Germany") "Geography_Spain" else h

/-- Pair of indicator values that one geography cell is encoded to. -/
def geoCellEncoding (v : Cell) : Cell × Cell :=
  (if v = Cell.str "Germany" then Cell.int 1 else Cell.int 0,
   if v = Cell.str "Spain" then Cell.int 1 else Cell.int 0)

/-- The ten required columns of lines 127-129, in source order. -/
def requiredCols : List String :=
  ["CreditScore", "Age", "Tenure", "Balance", "NumOfProducts",
   "HasCrCard", "IsActiveMember", "EstimatedSalary",
   "Geography_Germany", "Geography_Spain"]

/-- Line 131: `[c for c in required_cols if c not in df_processed.columns]`. -/
def missingColumns (df : DataFrame) : List String :=
  requiredCols.filter (fun c => decide (c ∉ df.header))

/-- Line 137: `df_processed[required_cols].to_dict(orient="records")` —
one record per row, holding exactly the required columns in order. -/
def selectedRecords (df : DataFrame) : List (List (String × Cell)) :=
  (List.range df.nrows).map (fun i =>
    requiredCols.map (fun c => (c, ((df.getCol c).bind (fun l => l.get? i)).getD Cell.nan)))

/-- Keys of a list of records in first-appearance order, as
`pd.DataFrame(list_of_dicts)` determines its columns. -/
def recordKeys (recs : List (List (String × Cell))) : List String :=
  recs.foldl (fun acc rec => acc ++ (rec.map Prod.fst).filter (fun k => decide (k ∉ acc))) []

/-- Line 143: `pd.DataFrame(results)` — one row per record, one column per
key, NaN where a record lacks a key. -/
def dfOfRecords (recs : List (List (String × Cell))) : DataFrame :=
  ⟨recs.length, (recordKeys recs).map (fun k => (k, recs.map (fun rec => lookupCell rec k)))⟩

/-- Column padded to `n` rows with NaN, modelling the RangeIndex alignment
that `pd.concat` performs. -/
def padCol (l : List Cell) (n : Nat) : List Cell :=
  (List.range n).map (fun i => (l.get? i).getD Cell.nan)

/-- Line 146: `pd.concat([df, result_df], axis=1)` on two default-indexed
frames: the columns of both, each aligned to the longer index. -/
def concatCols (a b : DataFrame) : DataFrame :=
  ⟨max a.nrows b.nrows,
   (a.cols ++ b.cols).map (fun p => (p.1, padCol p.2 (max a.nrows b.nrows)))⟩

/-- Parsed response of the `/predict/batch` call: HTTP status, raw body
text, and the `predictions` array (used only on status 200). -/
structure BatchResponse where
  status : Nat
  text : String
  predictions : List (List (String × Cell))
deriving DecidableEq, Repr

/-- Displayed outcome of the batch tab: rejection with the missing-column
list (line 134, before any request), the combined table with the processed
record count (lines 146-152, shown and offered for download), the raw body
of a non-200 response (line 154), or the message of a raised exception
(line 157). -/
inductive BatchOutcome where
  | missingCols (missing : List String)
  | success (finalDf : DataFrame) (count : Nat)
  | serviceError (body : String)
  | transportError (msg : String)
deriving DecidableEq, Repr

/-- Batch prediction flow (lines 107-157). The network oracle maps the
posted records to either a parsed response or the message of a raised
exception; the second component lists the requests issued. -/
def batchFlow (df : DataFrame)
    (net : List (List (String × Cell)) → Except String BatchResponse) :
    BatchOutcome × List (List (List (String × Cell))) :=
  let dfp := processGeography df
  let missing := missingColumns dfp
  if missing = [] then
    let records := selectedRecords dfp
    match net records with
    | Except.error e => (BatchOutcome.transportError e, [records])
    | Except.ok resp =>
      if resp.status = 200 then
        (BatchOutcome.success (concatCols df (dfOfRecords resp.predictions))
          resp.predictions.length, [records])
      else (BatchOutcome.serviceError resp.text, [records])
  else (BatchOutcome.missingCols missing, [])

/-- Sidebar message of the health check (lines 22-30): `connected` renders
"API Connected", a non-200 status renders "API Error: {code}", a raised
exception renders "API Unreachable". -/
inductive HealthMsg where
  | connected
  | apiError (code : Nat)
  | unreachable
deriving DecidableEq, Repr

/-- Exact sidebar text of each health message. -/
def renderHealth : HealthMsg → String
  | HealthMsg.connected => "API Connected ✅"
  | HealthMsg.apiError code => "API Error: " ++ toString code
  | HealthMsg.unreachable => "API Unreachable ❌"

/-- Health check (lines 22-30): one GET to `{api_url}/health`; the oracle
returns the status code or the message of a raised exception (the code
discards the exception and shows a fixed message). The second component
lists the requests issued. -/
def healthCheck (apiUrl : String) (net : String → Except String Nat) :
    HealthMsg × List String :=
  let url := apiUrl ++ "/health"
  match net url with
  | Except.error _ => (HealthMsg.unreachable, [url])
  | Except.ok code =>
    if code = 200 then (HealthMsg.connected, [url])
    else (HealthMsg.apiError code, [url])

/-- Line 57: `geo_germany = 1 if geography == "Germany" else 0`. -/
def geoGermany (geography : String) : Int :=
  if geography = "Germany" then 1 else 0

/-- Line 58: `geo_spain = 1 if geography == "Spain" else 0`. -/
def geoSpain (geography : String) : Int :=
  if geography = "Spain" then 1 else 0

/-- Options of the Geography selectbox (line 54). -/
def selectableCountries : List String := ["France", "Germany", "Spain"]

/-- Payload of the single prediction (lines 61-72), in source field order. -/
def mkPayload (creditScore age tenure : Int) (balance : Rat)
    (numOfProducts hasCrCard isActiveMember : Int) (estimatedSalary : Rat)
    (geography : String) : List (String × Cell) :=
  [("CreditScore", Cell.int creditScore),
   ("Age", Cell.int age),
   ("Tenure", Cell.int tenure),
   ("Balance", Cell.rat balance),
   ("NumOfProducts", Cell.int numOfProducts),
   ("HasCrCard", Cell.int hasCrCard),
   ("IsActiveMember", Cell.int isActiveMember),
   ("EstimatedSalary", Cell.rat estimatedSalary),
   ("Geography_Germany", Cell.int (geoGermany geography)),
   ("Geography_Spain", Cell.int (geoSpain geography))]

/-- Parsed response of the `/predict` call: HTTP status, raw body text,
and the JSON fields read on status 200. -/
structure PredResponse where
  status : Nat
  text : String
  churn_probability : Rat
  prediction : Int
  risk_level : String
deriving DecidableEq, Repr

/-- Displayed outcome of the single prediction tab: the metrics block of
lines 79-89 (probability scaled to percent, the Churn/Stay label, the risk
level verbatim, and whether the churn warning banner shows), the raw body
of a non-200 response (line 91), or the message of a raised exception
(line 93). -/
inductive SingleOutcome where
  | success (probPct : Rat) (label : String) (risk : String) (churnBanner : Bool)
  | serviceError (body : String)
  | transportError (msg : String)
deriving DecidableEq, Repr

/-- Error text shown by the single prediction tab, when any. -/
def renderSingle : SingleOutcome → Option String
  | SingleOutcome.serviceError t => some ("Error: " ++ t)
  | SingleOutcome.transportError m => some ("Request failed: " ++ m)
  | _ => none

/-- Single prediction flow (lines 60-93): one POST of the payload to
`{api_url}/predict`; the second component lists the issued requests as
(url, payload) pairs. -/
def singleFlow (apiUrl : String) (payload : List (String × Cell))
    (net : String → List (String × Cell) → Except String PredResponse) :
    SingleOutcome × List (String × List (String × Cell)) :=
  let url := apiUrl ++ "/predict"
  match net url payload with
  | Except.error e => (SingleOutcome.transportError e, [(url, payload)])
  | Except.ok r =>
    if r.status = 200 then
      (SingleOutcome.success (r.churn_probability * 100)
        (if r.prediction = 1 then "Churn" else "Stay")
        r.risk_level (decide (r.prediction = 1)), [(url, payload)])
    else (SingleOutcome.serviceError r.text, [(url, payload)])

/-- Error text shown by the batch tab for the two failure kinds of the
request itself; the missing-column rejection is carried by
`BatchOutcome.missingCols` directly. -/
def renderBatch : BatchOutcome → Option String
  | BatchOutcome.serviceError t => some ("Error: " ++ t)
  | BatchOutcome.transportError m => some ("Batch processing failed: " ++ m)
  | _ => none

/-- Parsed response of the `/drift/check` call. -/
structure DriftResponse where
  status : Nat
  text : String
  features_analyzed : Int
  features_drifted : Int
deriving DecidableEq, Repr

/-- Displayed outcome of the drift tab: the two counts plus whether the
drift warning shows (lines 174-180), the raw body of a non-200 response
(line 183), or the message of a raised exception (line 185). -/
inductive DriftOutcome where
  | success (analyzed drifted : Int) (warn : Bool)
  | serviceError (body : String)
  | transportError (msg : String)
deriving DecidableEq, Repr

/-- Error text shown by the drift tab, when any. -/
def renderDrift : DriftOutcome → Option String
  | DriftOutcome.serviceError t => some ("Error: " ++ t)
  | DriftOutcome.transportError m => some ("Drift check failed: " ++ m)
  | _ => none

/-- Drift check flow (lines 168-185): one POST with no body to
`{api_url}/drift/check?threshold={threshold}`. The rendering of the slider
value into the query string happens in Python float formatting, outside
this model, so the flow receives it as an opaque string. -/
def driftFlow (apiUrl thresholdStr : String) (net : String → Except String DriftResponse) :
    DriftOutcome × List String :=
  let url := apiUrl ++ "/drift/check?threshold=" ++ thresholdStr
  match net url with
  | Except.error e => (DriftOutcome.transportError e, [url])
  | Except.ok r =>
    if r.status = 200 then
      (DriftOutcome.success r.features_analyzed r.features_drifted
        (decide (r.features_drifted > 0)), [url])
    else (DriftOutcome.serviceError r.text, [url])

/-- Joint result of one dashboard run restricted to the health check and
the single prediction tab: the sidebar message, the payload built from the
form inputs, the displayed prediction outcome, and the requests the
prediction issued. -/
structure DashboardSingleResult where
  health : HealthMsg
  payload : List (String × Cell)
  single : SingleOutcome
  singleCalls : List (String × List (String × Cell))
deriving DecidableEq, Repr

/-- One dashboard run: the health check runs first (lines 22-30) against
its own oracle, then the single prediction flow runs against the same base
URL with its own oracle. Nothing of the health result feeds the flow. -/
def dashboardSingle (apiUrl : String) (hnet : String → Except String Nat)
    (pnet : String → List (String × Cell) → Except String PredResponse)
    (creditScore age tenure : Int) (balance : Rat)
    (numOfProducts hasCrCard isActiveMember : Int) (estimatedSalary : Rat)
    (geography : String) : DashboardSingleResult :=
  let h := healthCheck apiUrl hnet
  let payload := mkPayload creditScore age tenure balance numOfProducts
    hasCrCard isActiveMember estimatedSalary geography
  let s := singleFlow apiUrl payload pnet
  ⟨h.1, payload, s.1, s.2⟩

/-- Sample upload with the eight numeric columns and a raw `Geography`
column (one row, the values of the spec scenario); the geography
derivation makes all ten required columns present. -/
def csvFull : DataFrame :=
  ⟨1, [("CreditScore", [Cell.int 650]), ("Age", [Cell.int 35]),
      ("Tenure", [Cell.int 5]), ("Balance", [Cell.rat 50000]),
      ("NumOfProducts", [Cell.int 2]), ("HasCrCard", [Cell.int 1]),
      ("IsActiveMember", [Cell.int 1]), ("EstimatedSalary", [Cell.rat 75000]),
      ("Geography", [Cell.str "France"])]⟩

/-- Sample upload identical to `csvFull` except that the
`EstimatedSalary` column is absent. -/
def csvMissingSalary : DataFrame :=
  ⟨1, [("CreditScore", [Cell.int 650]), ("Age", [Cell.int 35]),
      ("Tenure", [Cell.int 5]), ("Balance", [Cell.rat 50000]),
      ("NumOfProducts", [Cell.int 2]), ("HasCrCard", [Cell.int 1]),
      ("IsActiveMember", [Cell.int 1]),
      ("Geography", [Cell.str "France"])]⟩

/-! Structural lemmas about the column operations. -/

theorem findCol_setColAux_self (cols : List (String × List Cell)) (c : String)
    (data : List Cell) : findCol (setColAux cols c data) c = some data := by
  induction cols with
  | nil => simp [setColAux, findCol]
  | cons p t ih =>
    by_cases hp : p.1 = c
    · simp [setColAux, hp, findCol]
    · simp [setColAux, hp, findCol, ih]

theorem findCol_setColAux_ne (cols : List (String × List Cell)) (c c' : String)
    (data : List Cell) (hcc : c ≠ c') :
    findCol (setColAux cols c data) c' = findCol cols c' := by
  induction cols with
  | nil => simp [setColAux, findCol, hcc]
  | cons p t ih =>
    by_cases hp : p.1 = c
    · simp [setColAux, hp, findCol, hcc]
    · by_cases hp' : p.1 = c'
      · simp [setColAux, hp, findCol, hp', Ne.symm hcc]
      · simp [setColAux, hp, findCol, hp', ih]

theorem mem_map_fst_of_findCol (cols : List (String × List Cell)) (c : String)
    (l : List Cell) (h : findCol cols c = some l) : c ∈ cols.map Prod.fst := by
  induction cols with
  | nil => simp [findCol] at h
  | cons p t ih =>
    by_cases hp : p.1 = c
    · simp [hp]
    · simp only [findCol, hp, if_false] at h
      simp [ih h]

theorem map_fst_setColAux (cols : List (String × List Cell)) (c : String)
    (data : List Cell) :
    (setColAux cols c data).map Prod.fst = setName (cols.map Prod.fst) c := by
  induction cols with
  | nil => simp [setColAux, setName]
  | cons p t ih =>
    by_cases hp : p.1 = c
    · simp [setColAux, hp, setName]
    · simp [setColAux, hp, setName, ih]

/-! Lemmas about the geography preprocessing. -/

theorem processGeography_getCol (df : DataFrame) (geo : List Cell)
    (h : df.getCol "Geography" = some geo) :
    (processGeography df).getCol "Geography_Germany" = some (indicatorCol "Germany" geo) ∧
    (processGeography df).getCol "Geography_Spain" = some (indicatorCol "Spain" geo) ∧
    (processGeography df).getCol "Geography" = some geo := by
  have hmem : "Geography" ∈ df.header := mem_map_fst_of_findCol df.cols _ _ h
  have h1 : (withGermanyCol df).getCol "Geography" = some geo := by
    show findCol (setColAux df.cols _ _) "Geography" = _
    rw [findCol_setColAux_ne _ _ _ _ (by decide)]
    exact h
  unfold processGeography
  rw [if_pos hmem]
  refine ⟨?_, ?_, ?_⟩
  · show findCol (setColAux _ "Geography_Spain" _) "Geography_Germany" = _
    rw [findCol_setColAux_ne _ _ _ _ (by decide)]
    show findCol (setColAux df.cols "Geography_Germany" _) "Geography_Germany" = _
    rw [findCol_setColAux_self]
    simp [h]
  · show findCol (setColAux _ "Geography_Spain" _) "Geography_Spain" = _
    rw [findCol_setColAux_self]
    simp [h1]
  · show findCol (setColAux _ "Geography_Spain" _) "Geography" = _
    rw [findCol_setColAux_ne _ _ _ _ (by decide)]
    exact h1

theorem header_processGeography (df : DataFrame) :
    (processGeography df).header = processedHeader df.header := by
  unfold processGeography processedHeader
  by_cases hmem : "Geography" ∈ df.header
  · rw [if_pos hmem, if_pos hmem]
    show (setColAux (withGermanyCol df).cols _ _).map Prod.fst = _
    rw [map_fst_setColAux]
    show setName ((setColAux df.cols _ _).map Prod.fst) _ = _
    rw [map_fst_setColAux]
    rfl
  · rw [if_neg hmem, if_neg hmem]

/-! Lemmas about the missing-column validation and the batch flow. -/

theorem mem_missingColumns (df : DataFrame) (c : String) :
    c ∈ missingColumns df ↔ c ∈ requiredCols ∧ c ∉ df.header := by
  simp [missingColumns, List.mem_filter]

theorem missingColumns_ne_nil (df : DataFrame) :
    missingColumns df ≠ [] ↔ ∃ c ∈ requiredCols, c ∉ df.header := by
  rw [ne_eq, List.eq_nil_iff_forall_not_mem]
  push_neg
  simp only [mem_missingColumns]

theorem batchFlow_of_missing (df : DataFrame)
    (net : List (List (String × Cell)) → Except String BatchResponse)
    (hm : missingColumns (processGeography df) ≠ []) :
    batchFlow df net = (BatchOutcome.missingCols (missingColumns (processGeography df)), []) := by
  simp [batchFlow, hm]

theorem batchFlow_transport (df : DataFrame)
    (net : List (List (String × Cell)) → Except String BatchResponse) (e : String)
    (hm : missingColumns (processGeography df) = [])
    (hnet : net (selectedRecords (processGeography df)) = Except.error e) :
    batchFlow df net = (BatchOutcome.transportError e, [selectedRecords (processGeography df)]) := by
  simp [batchFlow, hm, hnet]

theorem batchFlow_service (df : DataFrame)
    (net : List (List (String × Cell)) → Except String BatchResponse) (r : BatchResponse)
    (hm : missingColumns (processGeography df) = [])
    (hnet : net (selectedRecords (processGeography df)) = Except.ok r)
    (hs : r.status ≠ 200) :
    batchFlow df net = (BatchOutcome.serviceError r.text, [selectedRecords (processGeography df)]) := by
  simp [batchFlow, hm, hnet, hs]

theorem batchFlow_success (df : DataFrame)
    (net : List (List (String × Cell)) → Except String BatchResponse) (r : BatchResponse)
    (hm : missingColumns (processGeography df) = [])
    (hnet : net (selectedRecords (processGeography df)) = Except.ok r)
    (hs : r.status = 200) :
    batchFlow df net =
      (BatchOutcome.success (concatCols df (dfOfRecords r.predictions)) r.predictions.length,
       [selectedRecords (processGeography df)]) := by
  simp [batchFlow, hm, hnet, hs]

/-! Claim theorems. -/

/-- C1: the batch submission is rejected with no network call made if and
only if the processed table misses at least one of the ten required
columns; the reported missing-column list equals, as a set, the required
columns minus the columns present in the processed table, and no request
at all (hence no partial submission) is issued on rejection. -/
theorem batch_reject_iff_missing_C1 (df : DataFrame)
    (net : List (List (String × Cell)) → Except String BatchResponse) :
    ((∃ m, (batchFlow df net).1 = BatchOutcome.missingCols m) ↔
       ∃ c ∈ requiredCols, c ∉ (processGeography df).header) ∧
    (((batchFlow df net).2 = []) ↔ ∃ c ∈ requiredCols, c ∉ (processGeography df).header) ∧
    (∀ m, (batchFlow df net).1 = BatchOutcome.missingCols m →
       (batchFlow df net).2 = [] ∧
       ∀ c, c ∈ m ↔ (c ∈ requiredCols ∧ c ∉ (processGeography df).header)) := by
  by_cases hm : missingColumns (processGeography df) = []
  · have hne : ¬ ∃ c ∈ requiredCols, c ∉ (processGeography df).header := by
      rw [← missingColumns_ne_nil]
      simp [hm]
    cases hnet : net (selectedRecords (processGeography df)) with
    | error e =>
      rw [batchFlow_transport df net e hm hnet]
      simp [hne]
    | ok r =>
      by_cases hs : r.status = 200
      · rw [batchFlow_success df net r hm hnet hs]
        simp [hne]
      · rw [batchFlow_service df net r hm hnet hs]
        simp [hne]
  · have hex : ∃ c ∈ requiredCols, c ∉ (processGeography df).header :=
      (missingColumns_ne_nil _).mp hm
    rw [batchFlow_of_missing df net hm]
    refine ⟨by simp [hex], by simp [hex], ?_⟩
    intro m hmeq
    refine ⟨rfl, ?_⟩
    obtain rfl : missingColumns (processGeography df) = m := by
      injection hmeq
    intro c
    exact mem_missingColumns _ c

/-- Witness for C1: the spec scenario of an upload lacking only
`EstimatedSalary` is rejected with no request issued, reporting exactly
that column. -/
theorem batch_reject_iff_missing_C1_witness :
    (batchFlow csvMissingSalary (fun _ => Except.ok ⟨200, "", []⟩)).2 = [] ∧
    (∃ m, (batchFlow csvMissingSalary (fun _ => Except.ok ⟨200, "", []⟩)).1
       = BatchOutcome.missingCols m) ∧
    (batchFlow csvMissingSalary (fun _ => Except.ok ⟨200, "", []⟩)).1
       = BatchOutcome.missingCols ["EstimatedSalary"] := by
  have h := batch_reject_iff_missing_C1 csvMissingSalary (fun _ => Except.ok ⟨200, "", []⟩)
  refine ⟨h.2.1.mpr ⟨"EstimatedSalary", by decide, by decide⟩,
          h.1.mpr ⟨"EstimatedSalary", by decide, by decide⟩, ?_⟩
  decide

/-- C3: with a `Geography` column present, the derived indicator columns
hold, in every row, 1 exactly where the cell equals "Germany"
(respectively "Spain") and 0 elsewhere, so the two indicators of a row
never sum above 1 and a "France" cell yields both flags 0. -/
theorem batch_geo_indicator_C3 (df : DataFrame) (geo : List Cell)
    (h : df.getCol "Geography" = some geo) :
    (processGeography df).getCol "Geography_Germany" = some (indicatorCol "Germany" geo) ∧
    (processGeography df).getCol "Geography_Spain" = some (indicatorCol "Spain" geo) ∧
    ∀ i v, geo.get? i = some v →
      (processGeography df).cellAt "Geography_Germany" i
          = some (Cell.int (if v = Cell.str "Germany" then 1 else 0)) ∧
      (processGeography df).cellAt "Geography_Spain" i
          = some (Cell.int (if v = Cell.str "Spain" then 1 else 0)) ∧
      (if v = Cell.str "Germany" then (1 : Int) else 0)
        + (if v = Cell.str "Spain" then (1 : Int) else 0) ≤ 1 := by
  obtain ⟨hg, hs, -⟩ := processGeography_getCol df geo h
  refine ⟨hg, hs, ?_⟩
  intro i v hv
  have hv' : geo[i]? = some v := by
    rw [← List.get?_eq_getElem?]
    exact hv
  have hGS : Cell.str "Germany" ≠ Cell.str "Spain" := by decide
  refine ⟨?_, ?_, ?_⟩
  · simp [DataFrame.cellAt, hg, indicatorCol, List.getElem?_map, hv']
    split <;> rfl
  · simp [DataFrame.cellAt, hs, indicatorCol, List.getElem?_map, hv']
    split <;> rfl
  · by_cases h1 : v = Cell.str "Germany"
    · subst h1
      simp [hGS]
    · by_cases h2 : v = Cell.str "Spain" <;> simp [h1, h2]

/-- Witness for C3: a two-row upload with cells "France" and "Germany"
derives the indicator column `[0, 1]` for Germany and flag 0 for Spain in
the France row. -/
theorem batch_geo_indicator_C3_witness :
    (processGeography ⟨2, [("Geography", [Cell.str "France", Cell.str "Germany"])]⟩).getCol
        "Geography_Germany" = some [Cell.int 0, Cell.int 1] ∧
    (processGeography ⟨2, [("Geography", [Cell.str "France", Cell.str "Germany"])]⟩).cellAt
        "Geography_Spain" 0 = some (Cell.int 0) := by
  have h := batch_geo_indicator_C3 ⟨2, [("Geography", [Cell.str "France", Cell.str "Germany"])]⟩
      [Cell.str "France", Cell.str "Germany"] (by decide)
  constructor
  · rw [h.1]
    decide
  · exact ((h.2.2 0 (Cell.str "France") (by decide)).2.1).trans (by decide)

/-- C9: any geography cell other than exactly "Germany" or exactly
"Spain" is silently encoded with both indicators 0, identically to a
"France" cell; moreover the processed header, and hence the rejection
decision, is a function of the uploaded header alone, so no cell value
can trigger a diagnostic. -/
theorem batch_geo_fallback_C9 (df : DataFrame) (geo : List Cell) (i : Nat) (v : Cell)
    (h : df.getCol "Geography" = some geo) (hv : geo.get? i = some v)
    (hG : v ≠ Cell.str "Germany") (hS : v ≠ Cell.str "Spain") :
    (processGeography df).cellAt "Geography_Germany" i = some (Cell.int 0) ∧
    (processGeography df).cellAt "Geography_Spain" i = some (Cell.int 0) ∧
    geoCellEncoding v = geoCellEncoding (Cell.str "France") ∧
    (processGeography df).header = processedHeader df.header := by
  obtain ⟨hg, hs, -⟩ := processGeography_getCol df geo h
  have hv' : geo[i]? = some v := by
    rw [← List.get?_eq_getElem?]
    exact hv
  have h1 : Cell.str "France" ≠ Cell.str "Germany" := by decide
  have h2 : Cell.str "France" ≠ Cell.str "Spain" := by decide
  refine ⟨?_, ?_, ?_, header_processGeography df⟩
  · simp [DataFrame.cellAt, hg, indicatorCol, List.getElem?_map, hv', hG]
  · simp [DataFrame.cellAt, hs, indicatorCol, List.getElem?_map, hv', hS]
  · simp [geoCellEncoding, hG, hS, h1, h2]

/-- Witness for C9: the lowercase cell "germany" is encoded 0/0, exactly
as "France" would be. -/
theorem batch_geo_fallback_C9_witness :
    (processGeography ⟨1, [("Geography", [Cell.str "germany"])]⟩).cellAt
        "Geography_Germany" 0 = some (Cell.int 0) ∧
    (processGeography ⟨1, [("Geography", [Cell.str "germany"])]⟩).cellAt
        "Geography_Spain" 0 = some (Cell.int 0) := by
  have h := batch_geo_fallback_C9 ⟨1, [("Geography", [Cell.str "germany"])]⟩
      [Cell.str "germany"] 0 (Cell.str "germany") (by decide) (by decide) (by decide) (by decide)
  exact ⟨h.1, h.2.1⟩

/-! Lemmas about concatenation and record construction, for the batch
round trip. -/

theorem map_congr_mem {α β : Type} (l : List α) (f g : α → β)
    (h : ∀ a ∈ l, f a = g a) : l.map f = l.map g := by
  induction l with
  | nil => rfl
  | cons a t ih =>
    simp only [List.map_cons, h a (by simp)]
    rw [ih (fun x hx => h x (by simp [hx]))]

theorem map_id_mem {α : Type} (l : List α) (f : α → α)
    (h : ∀ a ∈ l, f a = a) : l.map f = l := by
  induction l with
  | nil => rfl
  | cons a t ih =>
    simp only [List.map_cons, h a (by simp)]
    rw [ih (fun x hx => h x (by simp [hx]))]

theorem padCol_get?_of_lt (l : List Cell) (n i : Nat) (h : i < n) :
    (padCol l n).get? i = some ((l.get? i).getD Cell.nan) := by
  simp [padCol, List.get?_eq_getElem?, List.getElem?_map, List.getElem?_range h]

theorem padCol_getElem? (l : List Cell) (n i : Nat) (h : i < n) :
    (padCol l n)[i]? = some (l[i]?.getD Cell.nan) := by
  simp [padCol, List.getElem?_map, List.getElem?_range h]

theorem padCol_length (l : List Cell) (n : Nat) : (padCol l n).length = n := by
  simp [padCol]

theorem padCol_eq_self (l : List Cell) : padCol l l.length = l := by
  apply List.ext_get?
  intro i
  by_cases hi : i < l.length
  · rw [padCol_get?_of_lt l l.length i hi]
    rw [List.get?_eq_getElem?, List.getElem?_eq_getElem hi]
    rfl
  · have h1 : (padCol l l.length).get? i = none := by
      rw [List.get?_eq_getElem?, List.getElem?_eq_none]
      rw [padCol_length]
      omega
    have h2 : l.get? i = none := by
      rw [List.get?_eq_getElem?, List.getElem?_eq_none]
      omega
    rw [h1, h2]

theorem concatCols_nrows (a b : DataFrame) :
    (concatCols a b).nrows = max a.nrows b.nrows := rfl

theorem dfOfRecords_nrows (recs : List (List (String × Cell))) :
    (dfOfRecords recs).nrows = recs.length := rfl

theorem rowAt_concat (a b : DataFrame) (i : Nat) (h : i < max a.nrows b.nrows) :
    (concatCols a b).rowAt i = a.rowAt i ++ b.rowAt i := by
  unfold concatCols DataFrame.rowAt
  simp only [List.map_map, List.map_append]
  congr 1
  · apply map_congr_mem
    intro p _
    simp [Function.comp, padCol_getElem? p.2 _ i h]
  · apply map_congr_mem
    intro p _
    simp [Function.comp, padCol_getElem? p.2 _ i h]

theorem findCol_map_of_mem (keys : List String) (g : String → List Cell) (k : String)
    (h : k ∈ keys) : findCol (keys.map (fun k0 => (k0, g k0))) k = some (g k) := by
  induction keys with
  | nil => cases h
  | cons a t ih =>
    by_cases hak : a = k
    · subst hak
      simp [findCol]
    · have ht : k ∈ t := by
        cases h with
        | head => exact absurd rfl hak
        | tail _ h => exact h
      simp [findCol, hak, ih ht]

theorem dfOfRecords_cellAt (recs : List (List (String × Cell))) (i : Nat)
    (rec : List (String × Cell)) (k : String)
    (hrec : recs.get? i = some rec) (hk : k ∈ recordKeys recs) :
    (dfOfRecords recs).cellAt k i = some (lookupCell rec k) := by
  unfold dfOfRecords DataFrame.cellAt DataFrame.getCol
  rw [show (⟨recs.length, (recordKeys recs).map (fun k => (k, recs.map (fun rec => lookupCell rec k)))⟩ : DataFrame).cols
      = (recordKeys recs).map (fun k => (k, recs.map (fun rec => lookupCell rec k))) from rfl]
  rw [findCol_map_of_mem _ _ _ hk]
  simp only [Option.some_bind]
  rw [List.get?_eq_getElem?, List.getElem?_map]
  rw [List.get?_eq_getElem?] at hrec
  simp [hrec]

theorem selectedRecords_keys (df : DataFrame) (rec : List (String × Cell))
    (hrec : rec ∈ selectedRecords df) : rec.map Prod.fst = requiredCols := by
  simp only [selectedRecords, List.mem_map] at hrec
  obtain ⟨i, -, rfl⟩ := hrec
  rw [List.map_map]
  apply map_id_mem
  intro c _
  rfl

theorem concatCols_cols_of_wf (a b : DataFrame) (hwf : a.WF) (hn : b.nrows = a.nrows) :
    (concatCols a b).cols
      = a.cols ++ b.cols.map (fun p => (p.1, padCol p.2 a.nrows)) := by
  unfold concatCols
  rw [hn, Nat.max_self, List.map_append]
  show List.map (fun p => (p.1, padCol p.2 a.nrows)) a.cols
      ++ List.map (fun p => (p.1, padCol p.2 a.nrows)) b.cols
    = a.cols ++ List.map (fun p => (p.1, padCol p.2 a.nrows)) b.cols
  congr 1
  apply map_id_mem
  intro p hp
  have hl : p.2.length = a.nrows := hwf p hp
  rw [← hl, padCol_eq_self]

/-- C2: for an upload of `n` rows and a successful batch response of `n`
prediction records, the combined table has exactly `n` rows and its row
`i` is uploaded row `i` followed column-wise by response row `i`; the
response cells of row `i` are exactly the values of the `i`-th prediction
record. -/
theorem batch_roundtrip_C2 (df : DataFrame)
    (net : List (List (String × Cell)) → Except String BatchResponse) (r : BatchResponse)
    (hm : missingColumns (processGeography df) = [])
    (hnet : net (selectedRecords (processGeography df)) = Except.ok r)
    (hs : r.status = 200)
    (hlen : r.predictions.length = df.nrows) :
    (batchFlow df net).1
      = BatchOutcome.success (concatCols df (dfOfRecords r.predictions)) r.predictions.length ∧
    (concatCols df (dfOfRecords r.predictions)).nrows = df.nrows ∧
    (∀ i, i < df.nrows →
      (concatCols df (dfOfRecords r.predictions)).rowAt i
        = df.rowAt i ++ (dfOfRecords r.predictions).rowAt i) ∧
    (∀ i rec k, r.predictions.get? i = some rec → k ∈ recordKeys r.predictions →
      (dfOfRecords r.predictions).cellAt k i = some (lookupCell rec k)) := by
  refine ⟨?_, ?_, ?_, ?_⟩
  · rw [batchFlow_success df net r hm hnet hs]
  · rw [concatCols_nrows, dfOfRecords_nrows, hlen, Nat.max_self]
  · intro i hi
    apply rowAt_concat
    rw [dfOfRecords_nrows, hlen, Nat.max_self]
    exact hi
  · intro i rec k h1 h2
    exact dfOfRecords_cellAt _ _ _ _ h1 h2

/-- Witness for C2: a one-row upload with a one-record response combines
into one row pairing the upload with the response. -/
theorem batch_roundtrip_C2_witness :
    (batchFlow csvFull (fun _ => Except.ok ⟨200, "",
        [[("churn_probability", Cell.rat (7/10)), ("prediction", Cell.int 1),
          ("risk_level", Cell.str "High")]]⟩)).1
      = BatchOutcome.success
          (concatCols csvFull (dfOfRecords
            [[("churn_probability", Cell.rat (7/10)), ("prediction", Cell.int 1),
              ("risk_level", Cell.str "High")]])) 1 ∧
    (concatCols csvFull (dfOfRecords
        [[("churn_probability", Cell.rat (7/10)), ("prediction", Cell.int 1),
          ("risk_level", Cell.str "High")]])).rowAt 0
      = csvFull.rowAt 0 ++ (dfOfRecords
          [[("churn_probability", Cell.rat (7/10)), ("prediction", Cell.int 1),
            ("risk_level", Cell.str "High")]]).rowAt 0 := by
  have h := batch_roundtrip_C2 csvFull (fun _ => Except.ok ⟨200, "",
      [[("churn_probability", Cell.rat (7/10)), ("prediction", Cell.int 1),
        ("risk_level", Cell.str "High")]]⟩)
      ⟨200, "", [[("churn_probability", Cell.rat (7/10)), ("prediction", Cell.int 1),
        ("risk_level", Cell.str "High")]]⟩
      (by decide) rfl rfl (by decide)
  exact ⟨h.1, h.2.2.1 0 (by decide)⟩

/-- C10: the batch request consists of exactly one POST whose records
each carry exactly the ten required fields in order (so no extra uploaded
column, in particular not `Geography`, is submitted), while the combined
table keeps every original uploaded column unchanged, followed by the
columns of the prediction response. -/
theorem batch_payload_fields_C10 (df : DataFrame)
    (net : List (List (String × Cell)) → Except String BatchResponse) (r : BatchResponse)
    (hwf : df.WF)
    (hm : missingColumns (processGeography df) = [])
    (hnet : net (selectedRecords (processGeography df)) = Except.ok r)
    (hs : r.status = 200)
    (hlen : r.predictions.length = df.nrows) :
    (batchFlow df net).2 = [selectedRecords (processGeography df)] ∧
    (∀ rec ∈ selectedRecords (processGeography df),
        rec.map Prod.fst = requiredCols ∧ "Geography" ∉ rec.map Prod.fst) ∧
    (batchFlow df net).1
      = BatchOutcome.success (concatCols df (dfOfRecords r.predictions)) r.predictions.length ∧
    ∃ extra, (concatCols df (dfOfRecords r.predictions)).cols = df.cols ++ extra ∧
      extra.map Prod.fst = (dfOfRecords r.predictions).header := by
  refine ⟨?_, ?_, ?_, ?_⟩
  · rw [batchFlow_success df net r hm hnet hs]
  · intro rec hrec
    have hkeys := selectedRecords_keys _ rec hrec
    refine ⟨hkeys, ?_⟩
    rw [hkeys]
    decide
  · rw [batchFlow_success df net r hm hnet hs]
  · refine ⟨(dfOfRecords r.predictions).cols.map (fun p => (p.1, padCol p.2 df.nrows)), ?_, ?_⟩
    · exact concatCols_cols_of_wf df (dfOfRecords r.predictions) hwf
        (by rw [dfOfRecords_nrows, hlen])
    · rw [List.map_map]
      unfold DataFrame.header
      apply map_congr_mem
      intro p _
      rfl

/-- Witness for C10: the one-row sample upload issues exactly one request
of selected records and its combined table starts with the original
columns. -/
theorem batch_payload_fields_C10_witness :
    (batchFlow csvFull (fun _ => Except.ok ⟨200, "ok", [[("prediction", Cell.int 0)]]⟩)).2
      = [selectedRecords (processGeography csvFull)] ∧
    (∃ extra, (concatCols csvFull (dfOfRecords [[("prediction", Cell.int 0)]])).cols
        = csvFull.cols ++ extra ∧
      extra.map Prod.fst = (dfOfRecords [[("prediction", Cell.int 0)]]).header) := by
  have h := batch_payload_fields_C10 csvFull
      (fun _ => Except.ok ⟨200, "ok", [[("prediction", Cell.int 0)]]⟩)
      ⟨200, "ok", [[("prediction", Cell.int 0)]]⟩
      (by decide) (by decide) rfl rfl (by decide)
  exact ⟨h.1, h.2.2.2⟩

/-- C4: for every selectable country exactly one of the three geography
encodings holds — both flags 0 (France), only the Germany flag, only the
Spain flag — and the spec scenario payload for France carries both
indicator fields as 0. -/
theorem single_geo_encoding_C4 (g : String) (hg : g ∈ selectableCountries) :
    (((geoGermany g = 0 ∧ geoSpain g = 0) ∧ ¬(geoGermany g = 1 ∧ geoSpain g = 0)
        ∧ ¬(geoGermany g = 0 ∧ geoSpain g = 1)) ∨
     (¬(geoGermany g = 0 ∧ geoSpain g = 0) ∧ (geoGermany g = 1 ∧ geoSpain g = 0)
        ∧ ¬(geoGermany g = 0 ∧ geoSpain g = 1)) ∨
     (¬(geoGermany g = 0 ∧ geoSpain g = 0) ∧ ¬(geoGermany g = 1 ∧ geoSpain g = 0)
        ∧ (geoGermany g = 0 ∧ geoSpain g = 1))) ∧
    (g = "France" → geoGermany g = 0 ∧ geoSpain g = 0) ∧
    lookupCell (mkPayload 650 35 5 50000 2 1 1 75000 "France") "Geography_Germany"
      = Cell.int 0 ∧
    lookupCell (mkPayload 650 35 5 50000 2 1 1 75000 "France") "Geography_Spain"
      = Cell.int 0 := by
  simp only [selectableCountries, List.mem_cons, List.not_mem_nil, or_false] at hg
  rcases hg with rfl | rfl | rfl <;> decide

/-- Witness for C4: selecting France yields both flags 0, and the
scenario payload carries `Geography_Germany = 0`. -/
theorem single_geo_encoding_C4_witness :
    (geoGermany "France" = 0 ∧ geoSpain "France" = 0) ∧
    lookupCell (mkPayload 650 35 5 50000 2 1 1 75000 "France") "Geography_Germany"
      = Cell.int 0 := by
  have h := single_geo_encoding_C4 "France" (by decide)
  exact ⟨h.2.1 rfl, h.2.2.1⟩

/-- C5 counterexample: a response with status 500 (a non-success status)
is reported as "API Error: 500", not as unreachable, refuting the claim
that every non-success status reports "unreachable". -/
theorem health_check_C5_counterexample :
    (healthCheck "http://api" (fun _ => Except.ok 500)).1 = HealthMsg.apiError 500 ∧
    (healthCheck "http://api" (fun _ => Except.ok 500)).1 ≠ HealthMsg.unreachable ∧
    renderHealth (healthCheck "http://api" (fun _ => Except.ok 500)).1 = "API Error: 500" ∧
    renderHealth (healthCheck "http://api" (fun _ => Except.ok 500)).1 ≠ "API Unreachable ❌" := by
  decide

/-- C5 amended: the health check issues exactly one GET to
`{api_url}/health` with no retry; it reports connected exactly when the
status is 200, reports "API Error: {code}" for any other status code, and
reports unreachable only on a transport failure. -/
theorem health_check_C5_amended (apiUrl : String) (net : String → Except String Nat) :
    (healthCheck apiUrl net).2 = [apiUrl ++ "/health"] ∧
    ((healthCheck apiUrl net).1 = HealthMsg.connected ↔
      net (apiUrl ++ "/health") = Except.ok 200) ∧
    (∀ e, net (apiUrl ++ "/health") = Except.error e →
       (healthCheck apiUrl net).1 = HealthMsg.unreachable) ∧
    (∀ code, net (apiUrl ++ "/health") = Except.ok code → code ≠ 200 →
       (healthCheck apiUrl net).1 = HealthMsg.apiError code ∧
       renderHealth (healthCheck apiUrl net).1 = "API Error: " ++ toString code) := by
  cases hnet : net (apiUrl ++ "/health") with
  | error e => simp [healthCheck, hnet, renderHealth]
  | ok code =>
    by_cases hc : code = 200
    · subst hc
      simp [healthCheck, hnet]
    · simp [healthCheck, hnet, hc, renderHealth]

/-- Witness for the amended C5: a transport failure reports unreachable
after the single GET to the health URL. -/
theorem health_check_C5_witness :
    (healthCheck "http://api" (fun _ => Except.error "refused")).1 = HealthMsg.unreachable ∧
    (healthCheck "http://api" (fun _ => Except.error "refused")).2 = ["http://api/health"] := by
  have h := health_check_C5_amended "http://api" (fun _ => Except.error "refused")
  exact ⟨h.2.2.1 "refused" rfl, h.1⟩

/-- C7: in each of the three flows a non-success status displays the raw
response body (verbatim, behind the fixed "Error: " label) and a raised
exception displays its message (behind the fixed flow label); in every
case exactly one request was issued, so there is no retry. -/
theorem error_surfacing_C7 :
    (∀ (url : String) (payload : List (String × Cell))
        (net : String → List (String × Cell) → Except String PredResponse) (r : PredResponse),
      net (url ++ "/predict") payload = Except.ok r → r.status ≠ 200 →
        (singleFlow url payload net).1 = SingleOutcome.serviceError r.text ∧
        renderSingle (singleFlow url payload net).1 = some ("Error: " ++ r.text) ∧
        (singleFlow url payload net).2.length = 1) ∧
    (∀ (url : String) (payload : List (String × Cell))
        (net : String → List (String × Cell) → Except String PredResponse) (e : String),
      net (url ++ "/predict") payload = Except.error e →
        (singleFlow url payload net).1 = SingleOutcome.transportError e ∧
        renderSingle (singleFlow url payload net).1 = some ("Request failed: " ++ e) ∧
        (singleFlow url payload net).2.length = 1) ∧
    (∀ (df : DataFrame) (net : List (List (String × Cell)) → Except String BatchResponse)
        (r : BatchResponse),
      missingColumns (processGeography df) = [] →
      net (selectedRecords (processGeography df)) = Except.ok r → r.status ≠ 200 →
        (batchFlow df net).1 = BatchOutcome.serviceError r.text ∧
        renderBatch (batchFlow df net).1 = some ("Error: " ++ r.text) ∧
        (batchFlow df net).2.length = 1) ∧
    (∀ (df : DataFrame) (net : List (List (String × Cell)) → Except String BatchResponse)
        (e : String),
      missingColumns (processGeography df) = [] →
      net (selectedRecords (processGeography df)) = Except.error e →
        (batchFlow df net).1 = BatchOutcome.transportError e ∧
        renderBatch (batchFlow df net).1 = some ("Batch processing failed: " ++ e) ∧
        (batchFlow df net).2.length = 1) ∧
    (∀ (url t : String) (net : String → Except String DriftResponse) (r : DriftResponse),
      net (url ++ "/drift/check?threshold=" ++ t) = Except.ok r → r.status ≠ 200 →
        (driftFlow url t net).1 = DriftOutcome.serviceError r.text ∧
        renderDrift (driftFlow url t net).1 = some ("Error: " ++ r.text) ∧
        (driftFlow url t net).2.length = 1) ∧
    (∀ (url t : String) (net : String → Except String DriftResponse) (e : String),
      net (url ++ "/drift/check?threshold=" ++ t) = Except.error e →
        (driftFlow url t net).1 = DriftOutcome.transportError e ∧
        renderDrift (driftFlow url t net).1 = some ("Drift check failed: " ++ e) ∧
        (driftFlow url t net).2.length = 1) := by
  refine ⟨?_, ?_, ?_, ?_, ?_, ?_⟩
  · intro url payload net r hnet hs
    simp [singleFlow, hnet, hs, renderSingle]
  · intro url payload net e hnet
    simp [singleFlow, hnet, renderSingle]
  · intro df net r hm hnet hs
    rw [batchFlow_service df net r hm hnet hs]
    simp [renderBatch]
  · intro df net e hm hnet
    rw [batchFlow_transport df net e hm hnet]
    simp [renderBatch]
  · intro url t net r hnet hs
    simp [driftFlow, hnet, hs, renderDrift]
  · intro url t net e hnet
    simp [driftFlow, hnet, renderDrift]

/-- Witness for C7: concrete non-success and exception cases of each of
the three flows. -/
theorem error_surfacing_C7_witness :
    (singleFlow "u" [] (fun _ _ => Except.ok ⟨404, "nf", 0, 0, ""⟩)).1
      = SingleOutcome.serviceError "nf" ∧
    (singleFlow "u" [] (fun _ _ => Except.error "boom")).1
      = SingleOutcome.transportError "boom" ∧
    (batchFlow csvFull (fun _ => Except.ok ⟨500, "bad", []⟩)).1
      = BatchOutcome.serviceError "bad" ∧
    (batchFlow csvFull (fun _ => Except.error "down")).1
      = BatchOutcome.transportError "down" ∧
    (driftFlow "u" "0.05" (fun _ => Except.ok ⟨503, "err", 0, 0⟩)).1
      = DriftOutcome.serviceError "err" ∧
    (driftFlow "u" "0.05" (fun _ => Except.error "lost")).1
      = DriftOutcome.transportError "lost" := by
  have h := error_surfacing_C7
  exact ⟨(h.1 "u" [] (fun _ _ => Except.ok ⟨404, "nf", 0, 0, ""⟩) ⟨404, "nf", 0, 0, ""⟩
            rfl (by decide)).1,
         (h.2.1 "u" [] (fun _ _ => Except.error "boom") "boom" rfl).1,
         (h.2.2.1 csvFull (fun _ => Except.ok ⟨500, "bad", []⟩) ⟨500, "bad", []⟩
            (by decide) rfl (by decide)).1,
         (h.2.2.2.1 csvFull (fun _ => Except.error "down") "down" (by decide) rfl).1,
         (h.2.2.2.2.1 "u" "0.05" (fun _ => Except.ok ⟨503, "err", 0, 0⟩) ⟨503, "err", 0, 0⟩
            rfl (by decide)).1,
         (h.2.2.2.2.2 "u" "0.05" (fun _ => Except.error "lost") "lost" rfl).1⟩

/-- C8: the health check result does not feed the single prediction flow:
two runs differing only in the health oracle build the same payload, issue
the same request, and display the same result; in particular a 200
response yields the success display even in a run whose health check
reported unreachable. -/
theorem health_noninterference_C8 (apiUrl : String)
    (hnet1 hnet2 : String → Except String Nat)
    (pnet : String → List (String × Cell) → Except String PredResponse)
    (creditScore age tenure : Int) (balance : Rat)
    (numOfProducts hasCrCard isActiveMember : Int) (estimatedSalary : Rat)
    (geography : String) :
    ((dashboardSingle apiUrl hnet1 pnet creditScore age tenure balance numOfProducts
        hasCrCard isActiveMember estimatedSalary geography).payload
      = (dashboardSingle apiUrl hnet2 pnet creditScore age tenure balance numOfProducts
        hasCrCard isActiveMember estimatedSalary geography).payload ∧
     (dashboardSingle apiUrl hnet1 pnet creditScore age tenure balance numOfProducts
        hasCrCard isActiveMember estimatedSalary geography).single
      = (dashboardSingle apiUrl hnet2 pnet creditScore age tenure balance numOfProducts
        hasCrCard isActiveMember estimatedSalary geography).single ∧
     (dashboardSingle apiUrl hnet1 pnet creditScore age tenure balance numOfProducts
        hasCrCard isActiveMember estimatedSalary geography).singleCalls
      = (dashboardSingle apiUrl hnet2 pnet creditScore age tenure balance numOfProducts
        hasCrCard isActiveMember estimatedSalary geography).singleCalls) ∧
    (∀ r, pnet (apiUrl ++ "/predict")
        (mkPayload creditScore age tenure balance numOfProducts hasCrCard
          isActiveMember estimatedSalary geography) = Except.ok r →
      r.status = 200 →
      (dashboardSingle apiUrl hnet1 pnet creditScore age tenure balance numOfProducts
        hasCrCard isActiveMember estimatedSalary geography).health = HealthMsg.unreachable →
      (dashboardSingle apiUrl hnet1 pnet creditScore age tenure balance numOfProducts
        hasCrCard isActiveMember estimatedSalary geography).single
        = SingleOutcome.success (r.churn_probability * 100)
            (if r.prediction = 1 then "Churn" else "Stay") r.risk_level
            (decide (r.prediction = 1))) := by
  refine ⟨⟨rfl, rfl, rfl⟩, ?_⟩
  intro r hr hs _
  simp [dashboardSingle, singleFlow, hr, hs]

/-- Witness for C8: an unreachable health oracle next to a succeeding
prediction oracle — the prediction result matches the run whose health
check succeeds, and displays the success metrics. -/
theorem health_noninterference_C8_witness :
    (dashboardSingle "http://a" (fun _ => Except.error "refused")
        (fun _ _ => Except.ok ⟨200, "", 7/10, 1, "High"⟩)
        650 35 5 50000 2 1 1 75000 "France").single
      = (dashboardSingle "http://a" (fun _ => Except.ok 200)
        (fun _ _ => Except.ok ⟨200, "", 7/10, 1, "High"⟩)
        650 35 5 50000 2 1 1 75000 "France").single ∧
    (dashboardSingle "http://a" (fun _ => Except.error "refused")
        (fun _ _ => Except.ok ⟨200, "", 7/10, 1, "High"⟩)
        650 35 5 50000 2 1 1 75000 "France").health = HealthMsg.unreachable ∧
    (dashboardSingle "http://a" (fun _ => Except.error "refused")
        (fun _ _ => Except.ok ⟨200, "", 7/10, 1, "High"⟩)
        650 35 5 50000 2 1 1 75000 "France").single
      = SingleOutcome.success 70 "Churn" "High" true := by
  have h := health_noninterference_C8 "http://a" (fun _ => Except.error "refused")
      (fun _ => Except.ok 200) (fun _ _ => Except.ok ⟨200, "", 7/10, 1, "High"⟩)
      650 35 5 50000 2 1 1 75000 "France"
  refine ⟨h.1.2.1, by decide, ?_⟩
  have h2 := h.2 ⟨200, "", 7/10, 1, "High"⟩ rfl rfl (by decide)
  refine h2.trans ?_
  norm_num

end BankChurn
